import Mathlib

/-!
Shallow embedding of the `investment-forecasting` repository
(`src/lib.rs` and `src/divanalysis/main.rs`).

Modelling conventions:
* `f64` values are modelled as `Rat`.  Where IEEE-754 division by zero
  produces `±inf`/`NaN` and the code then *compares* the quotient, the
  embedding encodes the outcome of that comparison directly (see
  `cellDivLt`, `cellDivGe`), so the filter decisions agree with the
  floating-point code on every input, including zero denominators.
* A polars `DataFrame` is modelled row-major: a `Table` is a list of
  column names plus a list of rows of `Cell`s.  Polars comparison masks
  treat a null as "comparison false", and `filter` drops such rows;
  the `cell*` comparison functions return `false` on `null` (and on a
  text cell, which a numeric comparison never accepts).
* `DataFrame::sort(col, reverse = true, nulls_last = false)` is modelled
  as a deterministic stable insertion sort by the key column, descending,
  rows without a numeric key after all numeric ones (rank `⊥`).
* Fallible Rust functions returning `Result<_, &str>` become
  `Except String _`; `panic!`/`expect` sites become `.error` values whose
  message starts with `panic:`.
-/

deriving instance DecidableEq for Except

namespace InvestmentForecasting

/-- One value of a polars column: a float (`Rat` here), a string, or null. -/
inductive Cell where
  | null : Cell
  | num : Rat → Cell
  | str : String → Cell
deriving DecidableEq, Repr

/-- A polars `DataFrame`, row-major: column names plus rows of cells. -/
structure Table where
  cols : List String
  rows : List (List Cell)
deriving DecidableEq, Repr

/-- The cell of row `r` in column position `i` (columns are index-aligned). -/
def cellAt (r : List Cell) (i : Nat) : Cell := r.getD i Cell.null

/-- Polars mask `column > x`: null/text cells compare false. -/
def cellGt (c : Cell) (x : Rat) : Bool :=
  match c with
  | .num q => decide (x < q)
  | _ => false

/-- Polars mask `column <= x`: null/text cells compare false. -/
def cellLe (c : Cell) (x : Rat) : Bool :=
  match c with
  | .num q => decide (q ≤ x)
  | _ => false

/-- Polars mask `column >= x`: null/text cells compare false. -/
def cellGeB (c : Cell) (x : Rat) : Bool :=
  match c with
  | .num q => decide (x ≤ q)
  | _ => false

/-- Polars mask `(a / b) < x` for finite `x`.  For `b = 0` the f64 quotient
is `+inf` (if `a > 0`), `-inf` (if `a < 0`) or `NaN` (if `a = 0`), so the
comparison holds exactly when `a < 0`.  Null/text operands give a null
quotient, which compares false. -/
def cellDivLt (a b : Cell) (x : Rat) : Bool :=
  match a, b with
  | .num p, .num q => if q = 0 then decide (p < 0) else decide (p / q < x)
  | _, _ => false

/-- Polars mask `(a / b) >= x` for finite `x`.  For `b = 0` the f64 quotient
is `±inf`/`NaN`, so the comparison holds exactly when `a > 0`. -/
def cellDivGe (a b : Cell) (x : Rat) : Bool :=
  match a, b with
  | .num p, .num q => if q = 0 then decide (0 < p) else decide (x ≤ p / q)
  | _, _ => false

/-- Whether a cell could live in a float-typed polars column (a float or a
null slot).  Polars columns are homogeneous; comparing or dividing a
text-typed column against a number is a type error there, so the stage
theorems assume the referenced columns are numeric-or-null. -/
def numOrNull : Cell → Bool
  | .str _ => false
  | _ => true

/-- Sort key of a cell for descending sorts: numeric value, or `⊥` for a
null/text cell (such rows end up after all numeric-keyed rows). -/
def cellRank : Cell → WithBot Rat
  | .num q => (q : WithBot Rat)
  | _ => ⊥

/-- Row order used by `DataFrame::sort([key], true, false)`: descending by
the key column at position `i`. -/
def rowDescAt (i : Nat) (r1 r2 : List Cell) : Prop :=
  cellRank (cellAt r2 i) ≤ cellRank (cellAt r1 i)

instance (i : Nat) : DecidableRel (rowDescAt i) :=
  fun r1 r2 => inferInstanceAs (Decidable (cellRank (cellAt r2 i) ≤ cellRank (cellAt r1 i)))

instance (i : Nat) : IsTotal (List Cell) (rowDescAt i) :=
  ⟨fun a b => le_total (cellRank (cellAt b i)) (cellRank (cellAt a i))⟩

instance (i : Nat) : IsTrans (List Cell) (rowDescAt i) :=
  ⟨fun _ _ _ h1 h2 => le_trans h2 h1⟩

/-- The minimal accepted dividend yield computed at the top of
`analyze_div_yield`: start from `1.5 × sp500_divy` versus `inflation`,
then raise to `min_divy` when that is larger. -/
def effectiveMinDivy (sp500_divy inflation min_divy : Rat) : Rat :=
  let min_ref_sp500 := sp500_divy * 1.5
  let minimal_accepted_divy :=
    if min_ref_sp500 > inflation then min_ref_sp500 else inflation
  if min_divy > minimal_accepted_divy then min_divy else minimal_accepted_divy

/-- The row predicate of the Yield stage: `Div Yield > minimal` and
`Div Yield <= max_divy` (column position `i`). -/
def yieldPass (minimal max_divy : Rat) (i : Nat) (r : List Cell) : Bool :=
  cellGt (cellAt r i) minimal && cellLe (cellAt r i) max_divy

/-- `analyze_div_yield` from `src/divanalysis/main.rs`: look up the
`Div Yield` column, keep rows strictly above the effective minimum and at
most `max_divy`, and sort by `Div Yield` descending. -/
def analyze_div_yield (df : Table) (sp500_divy inflation min_divy max_divy : Rat) :
    Except String Table :=
  match df.cols.findIdx? (· == "Div Yield") with
  | none => .error "Div Yield column does not exist!"
  | some i =>
    let filtred :=
      df.rows.filter (yieldPass (effectiveMinDivy sp500_divy inflation min_divy) max_divy i)
    .ok { cols := df.cols, rows := filtred.insertionSort (rowDescAt i) }

/-- The row predicate of the Payout stage: `Current Div / CF per Share`
strictly below `max_threshold` (column positions `i`, `j`). -/
def payoutPass (max_threshold : Rat) (i j : Nat) (r : List Cell) : Bool :=
  cellDivLt (cellAt r i) (cellAt r j) max_threshold

/-- `analyze_dividend_payout_rate`: require `Current Div` and `CF/Share`,
keep rows with `Current Div / CF/Share < max_threshold`, sort by
`Div Yield` descending (the sort fails if that column is absent). -/
def analyze_dividend_payout_rate (df : Table) (max_threshold : Rat) :
    Except String Table :=
  match df.cols.findIdx? (· == "Current Div"), df.cols.findIdx? (· == "CF/Share") with
  | some i, some j =>
    let filtred := df.rows.filter (payoutPass max_threshold i j)
    match df.cols.findIdx? (· == "Div Yield") with
    | some k => .ok { cols := df.cols, rows := filtred.insertionSort (rowDescAt k) }
    | none => .error "Could not sort along Div Yield"
  | _, _ => .error "Current Div and/or CF/Share columns do not exist!"

/-- The row predicate of the Growth stage: `DGR 5Y / DGR 10Y >= 1` and
`DGR 1Y >= min_growth_rate` (column positions `i5`, `i10`, `i1`). -/
def growthPass (min_growth_rate : Rat) (i1 i5 i10 : Nat) (r : List Cell) : Bool :=
  cellDivGe (cellAt r i5) (cellAt r i10) 1 && cellGeB (cellAt r i1) min_growth_rate

/-- `analyze_div_growth`: require all four DGR columns (the unused `DGR 3Y`
included, as `df.columns` demands every name), keep rows with
`DGR 5Y / DGR 10Y >= 1.0` and `DGR 1Y >= min_growth_rate`, sort by
`DGR 1Y` descending. -/
def analyze_div_growth (df : Table) (min_growth_rate : Rat) : Except String Table :=
  match df.cols.findIdx? (· == "DGR 1Y"), df.cols.findIdx? (· == "DGR 3Y"),
        df.cols.findIdx? (· == "DGR 5Y"), df.cols.findIdx? (· == "DGR 10Y") with
  | some i1, some _i3, some i5, some i10 =>
    let filtred := df.rows.filter (growthPass min_growth_rate i1 i5 i10)
    .ok { cols := df.cols, rows := filtred.insertionSort (rowDescAt i1) }
  | _, _, _, _ => .error "DGR (dividend growth) columns do not exist!"

/-- Elementwise `Annualized / CF/Share * 100` used by `print_summary`;
null propagates (division by a zero cell is left as total `Rat` division
here — `print_summary` claims never inspect that value). -/
def cellPayoutRate (a b : Cell) : Cell :=
  match a, b with
  | .num p, .num q => .num (p / q * 100)
  | _, _ => .null

/-- The part of `print_summary` after the optional symbol filter: fail on an
empty table, select the five report columns, then append the derived
`Div Payout Rate[%]` column (whose missing-column `expect`s are panics). -/
def summaryProject (dfs : Table) : Except String Table :=
  if dfs.rows.length = 0 then
    .error "Company symbol not present in selected List"
  else
    match dfs.cols.findIdx? (· == "Symbol"), dfs.cols.findIdx? (· == "Company"),
          dfs.cols.findIdx? (· == "Current Div"), dfs.cols.findIdx? (· == "Div Yield"),
          dfs.cols.findIdx? (· == "Price") with
    | some s, some c, some d, some y, some p =>
      match dfs.cols.findIdx? (· == "Annualized"), dfs.cols.findIdx? (· == "CF/Share") with
      | some a, some cf =>
        .ok { cols := ["Symbol", "Company", "Current Div", "Div Yield", "Price",
                       "Div Payout Rate[%]"],
              rows := dfs.rows.map (fun r =>
                [cellAt r s, cellAt r c, cellAt r d, cellAt r y, cellAt r p,
                 cellPayoutRate (cellAt r a) (cellAt r cf)]) }
      | _, _ => .error "panic: missing Annualized or CF/Share column"
    | _, _, _, _, _ => .error "Unable to select mentioned columns!"

/-- `print_summary` from `src/divanalysis/main.rs`, with the final
`println!` replaced by returning the projected table.  With a symbol
filter, keep the rows whose `Symbol` cell equals the given string (polars
`.equal`: null compares false); then project via `summaryProject`. -/
def print_summary (df : Table) (company : Option String) : Except String Table :=
  match company with
  | some c =>
    match df.cols.findIdx? (· == "Symbol") with
    | none => .error "Error: Unable to get Symbol"
    | some i =>
      summaryProject { cols := df.cols,
                       rows := df.rows.filter (fun r => cellAt r i == Cell.str c) }
  | none => summaryProject df

/-- `calculate_divy` from `src/lib.rs`.  A history entry is
`(pay_date, cash_amount)`; `frequency` is the Rust `u32`.  If the history
is shorter than `frequency`, annualize the most recent payment; otherwise
sum the most recent `frequency` payments; divide by price, times 100. -/
def calculate_divy (div_history : List (String × Rat)) (share_price : Rat)
    (frequency : Nat) : Except String Rat :=
  if div_history.length < frequency then
    match div_history.getLast? with
    | some div_info => .ok (div_info.2 / share_price * (frequency : Rat) * 100)
    | none => .error "Unable to get dividend value"
  else
    let annual_dividends := div_history.drop (div_history.length - frequency)
    let annualized_div := annual_dividends.foldl (fun acc num => acc + num.2) 0
    .ok (annualized_div / share_price * 100)

/-- `calculate_dgr` from `src/lib.rs`: average of the consecutive
period-over-period changes `(next/prev - 1) * 100`.  For a single entry the
Rust code divides `0.0` by a count of `0` and returns `Ok(NaN)`; total `Rat`
division renders that value as `0` here, and the claims about this case only
concern whether an error is surfaced. -/
def calculate_dgr (div_history : List (String × Rat)) : Except String Rat :=
  match div_history with
  | [] => .error "No dividends samples!"
  | d :: rest =>
    let st := rest.foldl
      (fun (acc : Rat × Nat × Rat) new_val =>
        (acc.1 + (new_val.2 / acc.2.2 - 1) * 100, acc.2.1 + 1, new_val.2))
      (0, 0, d.2)
    .ok (st.1 / (st.2.1 : Rat))

/-- `calculate_payout_ratio` from `src/lib.rs`: always returns
`Ok(div × num_shares / net_value × 100)`; there is no zero check on
`net_value` (in f64 a zero denominator yields a non-finite value inside
`Ok`, rendered by total `Rat` division here). -/
def calculate_payout_ratio (div num_shares net_value : Rat) : Except String Rat :=
  .ok (div * num_shares / net_value * 100)

/-- One raw spreadsheet cell as decoded by calamine (`DataType`).  `other`
stands for the variants (`Int`, `Bool`, `Error`, ...) that `load_list`
silently ignores via its wildcard match arm. -/
inductive RawCell where
  | float : Rat → RawCell
  | str : String → RawCell
  | datetime : Rat → RawCell
  | empty : RawCell
  | other : RawCell
deriving DecidableEq, Repr

/-- Header naming in `load_list`: a string cell names the column, an empty
cell is named "Blended", any other kind contributes no column name. -/
def headerName : RawCell → Option String
  | .str s => some s
  | .empty => some "Blended"
  | _ => none

/-- The two per-index series maps of `load_list` (`fseries` for floats,
`sseries` for strings).  The Rust code uses `HashMap`s, whose iteration
order is unspecified; they are modelled as insertion-ordered association
lists — none of the verified claims depends on column order. -/
structure SeriesAcc where
  fser : List (Nat × List (Option Rat))
  sser : List (Nat × List (Option String))
deriving DecidableEq, Repr

/-- `HashMap::contains_key`. -/
def hasKey {α : Type} (m : List (Nat × List α)) (i : Nat) : Bool :=
  m.any (fun kv => kv.1 == i)

/-- `get_mut(&i)` followed by `push(v)`. -/
def pushAt {α : Type} (m : List (Nat × List α)) (i : Nat) (v : α) :
    List (Nat × List α) :=
  m.map (fun kv => if kv.1 == i then (kv.1, kv.2 ++ [v]) else kv)

/-- The body of the cell match in the data-row loop of `load_list`, for the
cell at column index `i`. -/
def processCell (acc : SeriesAcc) (i : Nat) (c : RawCell) : SeriesAcc :=
  match c with
  | .float f =>
    if hasKey acc.fser i then { acc with fser := pushAt acc.fser i (some f) }
    else { acc with fser := acc.fser ++ [(i, [some f])] }
  | .datetime f =>
    if hasKey acc.fser i then { acc with fser := pushAt acc.fser i (some f) }
    else { acc with fser := acc.fser ++ [(i, [some f])] }
  | .str s =>
    if hasKey acc.sser i then { acc with sser := pushAt acc.sser i (some s) }
    else if s ≠ "" then { acc with sser := acc.sser ++ [(i, [some s])] }
    else if hasKey acc.fser i then { acc with fser := pushAt acc.fser i none }
    else acc
  | .empty =>
    if hasKey acc.fser i then { acc with fser := pushAt acc.fser i none }
    else if hasKey acc.sser i then { acc with sser := pushAt acc.sser i none }
    else { acc with sser := acc.sser ++ [(i, [none])] }
  | .other => acc

/-- One data row: the cells are visited left to right with their index. -/
def processRow (acc : SeriesAcc) (row : List RawCell) : SeriesAcc :=
  row.enum.foldl (fun a ic => processCell a ic.1 ic.2) acc

/-- All data rows in order. -/
def processRows (rows : List (List RawCell)) : SeriesAcc :=
  rows.foldl processRow { fser := [], sser := [] }

/-- `Option Rat` series slot to a table cell. -/
def floatCell : Option Rat → Cell
  | some f => .num f
  | none => .null

/-- `Option String` series slot to a table cell. -/
def strCell : Option String → Cell
  | some s => .str s
  | none => .null

/-- The `Series`/`DataFrame::new` tail of `load_list`: each float series is
named `columns[k]` (an out-of-range `k` is the Rust indexing panic), then
each string series; `DataFrame::new` fails unless names are distinct and
all series have equal length. -/
def buildDF (columns : List String) (acc : SeriesAcc) : Except String Table :=
  if acc.fser.all (fun kv => decide (kv.1 < columns.length)) &&
      acc.sser.all (fun kv => decide (kv.1 < columns.length)) then
    let series : List (String × List Cell) :=
      acc.fser.map (fun kv => (columns.getD kv.1 "", kv.2.map floatCell)) ++
        acc.sser.map (fun kv => (columns.getD kv.1 "", kv.2.map strCell))
    let height : Nat := match series with
      | [] => 0
      | sv :: _ => sv.2.length
    if (series.map Prod.fst).Nodup ∧ series.all (fun sv => sv.2.length == height) then
      .ok { cols := series.map Prod.fst,
            rows := (List.range height).map (fun j =>
              series.map (fun sv => sv.2.getD j Cell.null)) }
    else .error "Error: Could not create DataFrame"
  else .error "panic: index out of bounds"

/-- Everything `load_list` does with the chosen worksheet: skip the first
two rows unconditionally, take the next row as the header (panicking when
absent, as `expect_and_log` does), name columns via `headerName`, and build
the frame from all remaining rows. -/
def processSheet (sheet : List (List RawCell)) : Except String Table :=
  match sheet with
  | _ :: _ :: categories :: dataRows =>
    buildDF (categories.filterMap headerName) (processRows dataRows)
  | _ => .error "panic: unable to get descriptive row"

/-- `load_list` from `src/lib.rs`.  The workbook is a list of named sheets;
`sheet_names().iter().find(|x| *x == category)` is the exact-match lookup,
failing with the category-not-found error when no name matches. -/
def load_list (excel : List (String × List (List RawCell))) (category : String) :
    Except String Table :=
  match excel.find? (fun e => e.1 == category) with
  | none => .error "Error: Category not found"
  | some e => processSheet e.2

/-! Concrete tables used by the end-to-end scenarios (the same data as the
unit tests in `src/divanalysis/main.rs` and `src/lib.rs`). -/

/-- The Yield-stage scenario table: symbols [ABM, INTC, CAT] with yields
[5.54, 1.32, 4.0]. -/
def exYieldT : Table :=
  { cols := ["Symbol", "Div Yield"],
    rows := [[Cell.str "ABM", Cell.num 5.54],
             [Cell.str "INTC", Cell.num 1.32],
             [Cell.str "CAT", Cell.num 4]] }

/-- The Payout-stage test table of `test_analyze_divy_dpy`. -/
def exPayoutT : Table :=
  { cols := ["Symbol", "Div Yield", "Current Div", "CF/Share"],
    rows := [[Cell.str "ABM", Cell.num 5.54, Cell.num 0.54, Cell.num 10],
             [Cell.str "INTC", Cell.num 1.32, Cell.num 1.62, Cell.num 2],
             [Cell.str "CAT", Cell.num 4, Cell.num 0.14, Cell.num 20]] }

/-- The Growth-stage test table of `test_analyze_div_growth`. -/
def exGrowthT : Table :=
  { cols := ["Symbol", "Div Yield", "Current Div", "CF/Share",
             "DGR 1Y", "DGR 3Y", "DGR 5Y", "DGR 10Y"],
    rows := [[Cell.str "ABM", Cell.num 5.54, Cell.num 0.54, Cell.num 10,
              Cell.num 7.05, Cell.num 8.51, Cell.num 8.96, Cell.num 8.87],
             [Cell.str "INTC", Cell.num 1.32, Cell.num 1.62, Cell.num 2,
              Cell.num 0.68, Cell.num 0.91, Cell.num 3.36, Cell.num 9.34],
             [Cell.str "CAT", Cell.num 4, Cell.num 0.14, Cell.num 20,
              Cell.num 3.94, Cell.num 3.07, Cell.num 5.29, Cell.num 4.97]] }

/-- A table with the report columns but no rows (a fully-screened-out
result fed to `print_summary`). -/
def exEmptyT : Table :=
  { cols := ["Symbol", "Company", "Current Div", "Div Yield", "Price",
             "Annualized", "CF/Share"],
    rows := [] }

/-- A small workbook sheet: two banner rows, a header row with an Empty
cell, and two data rows. -/
def exSheet : List (List RawCell) :=
  [[RawCell.other], [RawCell.other],
   [RawCell.str "Symbol", RawCell.empty, RawCell.str "Div Yield"],
   [RawCell.str "ABM", RawCell.float 1, RawCell.float 5.54],
   [RawCell.str "CAT", RawCell.float 2, RawCell.float 4]]

/-- The table `load_list` builds from `exSheet` (float series first, then
string series, each in insertion order of their column index). -/
def exSheetT : Table :=
  { cols := ["Blended", "Div Yield", "Symbol"],
    rows := [[Cell.num 1, Cell.num 5.54, Cell.str "ABM"],
             [Cell.num 2, Cell.num 4, Cell.str "CAT"]] }

/-- Four quarterly payments of 0.5 (dates as in `test_calulate_divy`). -/
def exHistHalf : List (String × Rat) :=
  [("2023-01-01", 0.5), ("2023-04-01", 0.5), ("2023-07-01", 0.5), ("2023-11-01", 0.5)]

/-- Payment history [1.0, 1.0, 2.0, 4.0]. -/
def exHist1124 : List (String × Rat) :=
  [("2023-01-01", 1), ("2023-04-01", 1), ("2023-07-01", 2), ("2023-11-01", 4)]

/-- Payment history [0.5, 1.0, 2.0, 4.0]. -/
def exHistGrow : List (String × Rat) :=
  [("2023-01-01", 0.5), ("2023-04-01", 1), ("2023-07-01", 2), ("2023-11-01", 4)]

/-- The consecutive period-over-period percentage changes
`(next/prev - 1) * 100` along `prev :: vals`. -/
def dgrDeltas : Rat → List Rat → List Rat
  | _, [] => []
  | prev, v :: vs => (v / prev - 1) * 100 :: dgrDeltas v vs

/-! ### Helper lemmas -/

/-- The if-chain computing `minimal_accepted_divy` is the three-way max of
the spec: `max(configured minimum, inflation, 1.5 × index yield)`. -/
lemma effectiveMinDivy_eq_max (sp infl mn : Rat) :
    effectiveMinDivy sp infl mn = max mn (max infl (sp * 1.5)) := by
  unfold effectiveMinDivy
  dsimp only
  split_ifs with h1 h2 h3 <;> simp only [max_def] <;> split_ifs <;> linarith

/-- Successful unfolding of the Yield stage. -/
lemma analyze_div_yield_ok (df : Table) (sp infl mn mx : Rat) {i : Nat}
    (hi : df.cols.findIdx? (· == "Div Yield") = some i) :
    analyze_div_yield df sp infl mn mx =
      .ok { cols := df.cols,
            rows := (df.rows.filter
              (yieldPass (effectiveMinDivy sp infl mn) mx i)).insertionSort (rowDescAt i) } := by
  simp only [analyze_div_yield, hi]

/-- Successful unfolding of the Payout stage. -/
lemma analyze_payout_ok (df : Table) (th : Rat) {i j k : Nat}
    (hi : df.cols.findIdx? (· == "Current Div") = some i)
    (hj : df.cols.findIdx? (· == "CF/Share") = some j)
    (hk : df.cols.findIdx? (· == "Div Yield") = some k) :
    analyze_dividend_payout_rate df th =
      .ok { cols := df.cols,
            rows := (df.rows.filter (payoutPass th i j)).insertionSort (rowDescAt k) } := by
  simp only [analyze_dividend_payout_rate, hi, hj, hk]

/-- Successful unfolding of the Growth stage. -/
lemma analyze_growth_ok (df : Table) (mg : Rat) {i1 i3 i5 i10 : Nat}
    (h1 : df.cols.findIdx? (· == "DGR 1Y") = some i1)
    (h3 : df.cols.findIdx? (· == "DGR 3Y") = some i3)
    (h5 : df.cols.findIdx? (· == "DGR 5Y") = some i5)
    (h10 : df.cols.findIdx? (· == "DGR 10Y") = some i10) :
    analyze_div_growth df mg =
      .ok { cols := df.cols,
            rows := (df.rows.filter (growthPass mg i1 i5 i10)).insertionSort (rowDescAt i1) } := by
  simp only [analyze_div_growth, h1, h3, h5, h10]

/-- Filtering a sort of a filtered list with the same predicate changes
nothing: every element already passes. -/
lemma filter_insertionSort_filter (P : List Cell → Bool) (i : Nat)
    (l : List (List Cell)) :
    ((l.filter P).insertionSort (rowDescAt i)).filter P =
      (l.filter P).insertionSort (rowDescAt i) := by
  apply List.filter_eq_self.mpr
  intro a ha
  exact List.of_mem_filter ((List.mem_insertionSort (rowDescAt i)).1 ha)

/-- Folding `+` over the second components equals the sum of the mapped
list (the `annualized_div` fold of `calculate_divy`). -/
lemma foldl_add_snd (l : List (String × Rat)) (a : Rat) :
    l.foldl (fun acc num => acc + num.2) a = a + (l.map Prod.snd).sum := by
  induction l generalizing a with
  | nil => simp
  | cons x xs ih => simp [ih, add_assoc]

/-- The running state of the `calculate_dgr` fold: accumulated delta sum,
delta count, and last value seen. -/
lemma dgr_foldl (rest : List (String × Rat)) (a0 : Rat) (c0 : Nat) (prev : Rat) :
    rest.foldl
      (fun (acc : Rat × Nat × Rat) new_val =>
        (acc.1 + (new_val.2 / acc.2.2 - 1) * 100, acc.2.1 + 1, new_val.2))
      (a0, c0, prev) =
      (a0 + (dgrDeltas prev (rest.map Prod.snd)).sum, c0 + rest.length,
        (rest.map Prod.snd).getLastD prev) := by
  induction rest generalizing a0 c0 prev with
  | nil => simp [dgrDeltas]
  | cons x xs ih =>
    simp only [List.foldl_cons, List.map_cons, dgrDeltas, List.sum_cons,
      List.length_cons, ih, List.getLastD_cons, Prod.mk.injEq]
    refine ⟨by ring, by omega, trivial⟩

/-- On a nonempty history, `calculate_dgr` returns the sum of the
consecutive percentage changes divided by their count. -/
lemma calculate_dgr_cons (d : String × Rat) (rest : List (String × Rat)) :
    calculate_dgr (d :: rest) =
      .ok ((dgrDeltas d.2 (rest.map Prod.snd)).sum / (rest.length : Rat)) := by
  simp [calculate_dgr, dgr_foldl]

/-- `buildDF` can never produce the category-lookup error string. -/
lemma buildDF_ne_catNotFound (columns : List String) (acc : SeriesAcc) :
    buildDF columns acc ≠ .error "Error: Category not found" := by
  simp only [buildDF]
  split_ifs <;> simp

/-- `processSheet` can never produce the category-lookup error string. -/
lemma processSheet_ne_catNotFound (sheet : List (List RawCell)) :
    processSheet sheet ≠ .error "Error: Category not found" := by
  cases sheet with
  | nil => simp [processSheet]
  | cons r0 t0 =>
    cases t0 with
    | nil => simp [processSheet]
    | cons r1 t1 =>
      cases t1 with
      | nil => simp [processSheet]
      | cons hdr rows => exact buildDF_ne_catNotFound _ _

/-- Every column name of a successfully built frame is one of the header
names handed to `buildDF` (each series is named `columns[k]` for an
in-range `k`). -/
lemma buildDF_name_mem (columns : List String) (acc : SeriesAcc) (t : Table)
    (h : buildDF columns acc = .ok t) : ∀ n ∈ t.cols, n ∈ columns := by
  simp only [buildDF] at h
  split_ifs at h with hg hn
  · obtain rfl := Except.ok.inj h
    simp only [Bool.and_eq_true, List.all_eq_true, decide_eq_true_eq] at hg
    intro n hmem
    simp only [List.map_append, List.map_map, List.mem_append, List.mem_map,
      Function.comp] at hmem
    rcases hmem with ⟨kv, hkv, rfl⟩ | ⟨kv, hkv, rfl⟩
    · have hlt := hg.1 kv hkv
      rw [List.getD_eq_getElem columns "" hlt]
      exact List.getElem_mem hlt
    · have hlt := hg.2 kv hkv
      rw [List.getD_eq_getElem columns "" hlt]
      exact List.getElem_mem hlt

/-! ### Claim theorems -/

/-- C1: for every table with a `Div Yield` column (numeric-or-null cells,
as in a polars float column) and all parameters, the Yield stage succeeds
and returns exactly the input rows whose `Div Yield`
is strictly above `max(min_divy, inflation, 1.5 × sp500_divy)` and at most
`max_divy`, sorted by `Div Yield` descending; and on the table with yields
[5.54, 1.32, 4.0] with inflation 3.4, index yield 1.61, min 3.9, max 10 it
keeps ABM (5.54) then CAT (4.0). -/
theorem yield_stage_filters_and_sorts :
    (∀ (df : Table) (sp infl mn mx : Rat) (i : Nat),
      df.cols.findIdx? (· == "Div Yield") = some i →
      (∀ r ∈ df.rows, numOrNull (cellAt r i) = true) →
      ∃ u, analyze_div_yield df sp infl mn mx = .ok u ∧
        u.rows.Perm (df.rows.filter (yieldPass (max mn (max infl (sp * 1.5))) mx i)) ∧
        List.Sorted (rowDescAt i) u.rows) ∧
    analyze_div_yield exYieldT 1.61 3.4 3.9 10 =
      .ok { cols := ["Symbol", "Div Yield"],
            rows := [[Cell.str "ABM", Cell.num 5.54], [Cell.str "CAT", Cell.num 4]] } := by
  constructor
  · intro df sp infl mn mx i hi _hnum
    refine ⟨_, analyze_div_yield_ok df sp infl mn mx hi, ?_, ?_⟩
    · rw [← effectiveMinDivy_eq_max]
      exact List.perm_insertionSort _ _
    · exact List.sorted_insertionSort _ _
  · with_unfolding_all decide

/-- C1 witness: the general part of the claim applied to the concrete
scenario table (the `Div Yield` column sits at position 1). -/
theorem yield_stage_filters_and_sorts_witness :
    ∃ u, analyze_div_yield exYieldT 1.61 3.4 3.9 10 = .ok u ∧
      u.rows.Perm (exYieldT.rows.filter (yieldPass (max 3.9 (max 3.4 (1.61 * 1.5))) 10 1)) ∧
      List.Sorted (rowDescAt 1) u.rows :=
  yield_stage_filters_and_sorts.1 exYieldT 1.61 3.4 3.9 10 1
    (by with_unfolding_all decide) (by with_unfolding_all decide)

/-- C8: the Yield stage is idempotent: re-applying it with the same
parameters to its own output returns that output unchanged. -/
theorem yield_stage_idempotent (df : Table) (sp infl mn mx : Rat) (u : Table)
    (h : analyze_div_yield df sp infl mn mx = .ok u) :
    analyze_div_yield u sp infl mn mx = .ok u := by
  rcases hfind : df.cols.findIdx? (· == "Div Yield") with _ | i
  · simp [analyze_div_yield, hfind] at h
  · rw [analyze_div_yield_ok df sp infl mn mx hfind] at h
    obtain rfl := Except.ok.inj h
    have h2 : (Table.mk df.cols
        ((df.rows.filter (yieldPass (effectiveMinDivy sp infl mn) mx i)).insertionSort
          (rowDescAt i))).cols.findIdx? (· == "Div Yield") = some i := hfind
    rw [analyze_div_yield_ok _ sp infl mn mx h2]
    congr 2
    rw [show (Table.mk df.cols
        ((df.rows.filter (yieldPass (effectiveMinDivy sp infl mn) mx i)).insertionSort
          (rowDescAt i))).rows =
        (df.rows.filter (yieldPass (effectiveMinDivy sp infl mn) mx i)).insertionSort
          (rowDescAt i) from rfl]
    rw [filter_insertionSort_filter]
    exact (List.sorted_insertionSort (rowDescAt i) _).insertionSort_eq

/-- C2: for every table with `Current Div`, `CF/Share` and `Div Yield`
columns (numeric-or-null cells) and every threshold, the Payout stage
succeeds and keeps exactly
the rows whose ratio `Current Div / CF/Share` is strictly below the
threshold — it never admits a row whose ratio fails that strict bound —
and the output is sorted by `Div Yield` descending (position `k`), not by
the payout ratio. -/
theorem payout_stage_filters_and_sorts
    (df : Table) (th : Rat) (i j k : Nat)
    (hi : df.cols.findIdx? (· == "Current Div") = some i)
    (hj : df.cols.findIdx? (· == "CF/Share") = some j)
    (hk : df.cols.findIdx? (· == "Div Yield") = some k)
    (_hnum : ∀ r ∈ df.rows, numOrNull (cellAt r i) = true ∧
      numOrNull (cellAt r j) = true ∧ numOrNull (cellAt r k) = true) :
    ∃ u, analyze_dividend_payout_rate df th = .ok u ∧
      u.rows.Perm (df.rows.filter (payoutPass th i j)) ∧
      (∀ r ∈ u.rows, cellDivLt (cellAt r i) (cellAt r j) th = true) ∧
      List.Sorted (rowDescAt k) u.rows := by
  refine ⟨_, analyze_payout_ok df th hi hj hk, List.perm_insertionSort _ _, ?_, ?_⟩
  · intro r hr
    have hp : payoutPass th i j r = true :=
      List.of_mem_filter ((List.mem_insertionSort (rowDescAt k)).1 hr)
    exact hp
  · exact List.sorted_insertionSort _ _

/-- C2 witness: the Payout stage on the table of `test_analyze_divy_dpy`
with threshold 0.75 (column positions 2, 3 and 1). -/
theorem payout_stage_filters_and_sorts_witness :
    ∃ u, analyze_dividend_payout_rate exPayoutT 0.75 = .ok u ∧
      u.rows.Perm (exPayoutT.rows.filter (payoutPass 0.75 2 3)) ∧
      (∀ r ∈ u.rows, cellDivLt (cellAt r 2) (cellAt r 3) 0.75 = true) ∧
      List.Sorted (rowDescAt 1) u.rows :=
  payout_stage_filters_and_sorts exPayoutT 0.75 2 3 1
    (by with_unfolding_all decide) (by with_unfolding_all decide)
    (by with_unfolding_all decide) (by with_unfolding_all decide)

/-- C3: for every table with the four DGR columns (the referenced ones
numeric-or-null) and every minimum growth rate, the Growth stage succeeds
and keeps exactly the rows satisfying both
`DGR 5Y / DGR 10Y >= 1.0` and `DGR 1Y >= min_growth_rate` — it never
admits a row failing either bound — sorted by `DGR 1Y` descending. -/
theorem growth_stage_filters_and_sorts
    (df : Table) (mg : Rat) (i1 i3 i5 i10 : Nat)
    (h1 : df.cols.findIdx? (· == "DGR 1Y") = some i1)
    (h3 : df.cols.findIdx? (· == "DGR 3Y") = some i3)
    (h5 : df.cols.findIdx? (· == "DGR 5Y") = some i5)
    (h10 : df.cols.findIdx? (· == "DGR 10Y") = some i10)
    (_hnum : ∀ r ∈ df.rows, numOrNull (cellAt r i1) = true ∧
      numOrNull (cellAt r i5) = true ∧ numOrNull (cellAt r i10) = true) :
    ∃ u, analyze_div_growth df mg = .ok u ∧
      u.rows.Perm (df.rows.filter (growthPass mg i1 i5 i10)) ∧
      (∀ r ∈ u.rows, cellDivGe (cellAt r i5) (cellAt r i10) 1 = true ∧
        cellGeB (cellAt r i1) mg = true) ∧
      List.Sorted (rowDescAt i1) u.rows := by
  refine ⟨_, analyze_growth_ok df mg h1 h3 h5 h10, List.perm_insertionSort _ _, ?_, ?_⟩
  · intro r hr
    have hp : growthPass mg i1 i5 i10 r = true :=
      List.of_mem_filter ((List.mem_insertionSort (rowDescAt i1)).1 hr)
    simp only [growthPass, Bool.and_eq_true] at hp
    exact hp
  · exact List.sorted_insertionSort _ _

/-- C3 witness: the Growth stage on the table of `test_analyze_div_growth`
with minimum growth rate 7.0 (DGR columns at positions 4, 5, 6, 7). -/
theorem growth_stage_filters_and_sorts_witness :
    ∃ u, analyze_div_growth exGrowthT 7 = .ok u ∧
      u.rows.Perm (exGrowthT.rows.filter (growthPass 7 4 6 7)) ∧
      (∀ r ∈ u.rows, cellDivGe (cellAt r 6) (cellAt r 7) 1 = true ∧
        cellGeB (cellAt r 4) 7 = true) ∧
      List.Sorted (rowDescAt 4) u.rows :=
  growth_stage_filters_and_sorts exGrowthT 7 4 5 6 7
    (by with_unfolding_all decide) (by with_unfolding_all decide)
    (by with_unfolding_all decide) (by with_unfolding_all decide)
    (by with_unfolding_all decide)

/-- C9: each of the three screening stages, whenever it succeeds, returns a
table with exactly the input column list (same names, same order) and a
multiset of rows drawn from the input rows unchanged — stages only remove
and reorder rows. -/
theorem stages_preserve_columns_and_rows :
    (∀ (df : Table) (sp infl mn mx : Rat) (u : Table),
      analyze_div_yield df sp infl mn mx = .ok u →
      u.cols = df.cols ∧ u.rows.Subperm df.rows) ∧
    (∀ (df : Table) (th : Rat) (u : Table),
      analyze_dividend_payout_rate df th = .ok u →
      u.cols = df.cols ∧ u.rows.Subperm df.rows) ∧
    (∀ (df : Table) (mg : Rat) (u : Table),
      analyze_div_growth df mg = .ok u →
      u.cols = df.cols ∧ u.rows.Subperm df.rows) := by
  refine ⟨?_, ?_, ?_⟩
  · intro df sp infl mn mx u h
    rcases hfind : df.cols.findIdx? (· == "Div Yield") with _ | i
    · simp [analyze_div_yield, hfind] at h
    · rw [analyze_div_yield_ok df sp infl mn mx hfind] at h
      obtain rfl := Except.ok.inj h
      exact ⟨rfl, _, List.perm_insertionSort _ _ |>.symm, List.filter_sublist _⟩
  · intro df th u h
    rcases hi : df.cols.findIdx? (· == "Current Div") with _ | i <;>
      rcases hj : df.cols.findIdx? (· == "CF/Share") with _ | j <;>
      rcases hk : df.cols.findIdx? (· == "Div Yield") with _ | k <;>
      simp only [analyze_dividend_payout_rate, hi, hj, hk] at h
    all_goals first
      | exact Except.noConfusion h
      | (obtain rfl := Except.ok.inj h
         exact ⟨rfl, _, List.perm_insertionSort _ _ |>.symm, List.filter_sublist _⟩)
  · intro df mg u h
    rcases h1 : df.cols.findIdx? (· == "DGR 1Y") with _ | i1 <;>
      rcases h3 : df.cols.findIdx? (· == "DGR 3Y") with _ | i3 <;>
      rcases h5 : df.cols.findIdx? (· == "DGR 5Y") with _ | i5 <;>
      rcases h10 : df.cols.findIdx? (· == "DGR 10Y") with _ | i10 <;>
      simp only [analyze_div_growth, h1, h3, h5, h10] at h
    all_goals first
      | exact Except.noConfusion h
      | (obtain rfl := Except.ok.inj h
         exact ⟨rfl, _, List.perm_insertionSort _ _ |>.symm, List.filter_sublist _⟩)

/-- C9 witness: the Yield-stage part applied to the concrete scenario
output (the Yield stage maps `exYieldT` to the two-row table below). -/
theorem stages_preserve_columns_and_rows_witness :
    Table.cols { cols := ["Symbol", "Div Yield"],
                 rows := [[Cell.str "ABM", Cell.num 5.54], [Cell.str "CAT", Cell.num 4]] } =
      exYieldT.cols ∧
    List.Subperm
      (Table.rows { cols := ["Symbol", "Div Yield"],
                    rows := [[Cell.str "ABM", Cell.num 5.54], [Cell.str "CAT", Cell.num 4]] })
      exYieldT.rows :=
  stages_preserve_columns_and_rows.1 exYieldT 1.61 3.4 3.9 10 _
    (by with_unfolding_all decide)

/-- C10: `print_summary` returns the symbol-not-found error whenever the
table it is about to project is empty — both when no symbol filter was
requested (an empty fully screened table) and when a symbol filter matched
no row. -/
theorem print_summary_empty_fails :
    (∀ df : Table, df.rows = [] →
      print_summary df none = .error "Company symbol not present in selected List") ∧
    (∀ (df : Table) (c : String) (i : Nat),
      df.cols.findIdx? (· == "Symbol") = some i →
      df.rows.filter (fun r => cellAt r i == Cell.str c) = [] →
      print_summary df (some c) = .error "Company symbol not present in selected List") := by
  constructor
  · intro df hdf
    simp [print_summary, summaryProject, hdf]
  · intro df c i hi hflt
    simp [print_summary, summaryProject, hi, hflt]

/-- C10 witness: an empty, fully-screened table makes the summary fail in
both modes. -/
theorem print_summary_empty_fails_witness :
    print_summary exEmptyT none = .error "Company symbol not present in selected List" ∧
    print_summary exEmptyT (some "ABM") =
      .error "Company symbol not present in selected List" :=
  ⟨print_summary_empty_fails.1 exEmptyT rfl,
   print_summary_empty_fails.2 exEmptyT "ABM" 0
     (by with_unfolding_all decide) rfl⟩

/-- C4 (amended): when the history is shorter than `frequency` the result
annualizes the most recent payment; when it is at least `frequency` long
the result sums the most recent `frequency` payments; both divide by the
price and scale by 100; the empty-history error is raised whenever the
history has zero entries and `frequency >= 1` (with `frequency = 0` an
empty history takes the summing branch instead and yields `Ok(0)`); and
the two concrete scenarios give 2.0 and 8.0. -/
theorem calculate_divy_spec :
    (∀ (hist : List (String × Rat)) (p : Rat) (f : Nat) (d : String × Rat),
      hist.getLast? = some d → hist.length < f →
      calculate_divy hist p f = .ok (d.2 / p * (f : Rat) * 100)) ∧
    (∀ (hist : List (String × Rat)) (p : Rat) (f : Nat), f ≤ hist.length →
      calculate_divy hist p f =
        .ok (((hist.drop (hist.length - f)).map Prod.snd).sum / p * 100)) ∧
    (∀ (p : Rat) (f : Nat), 1 ≤ f →
      calculate_divy [] p f = .error "Unable to get dividend value") ∧
    calculate_divy exHistHalf 100 4 = .ok 2 ∧
    calculate_divy exHist1124 100 4 = .ok 8 := by
  refine ⟨?_, ?_, ?_, by with_unfolding_all decide, by with_unfolding_all decide⟩
  · intro hist p f d hd hlt
    simp [calculate_divy, hlt, hd]
  · intro hist p f hle
    simp only [calculate_divy, if_neg (Nat.not_lt.mpr hle)]
    rw [foldl_add_snd, zero_add]
  · intro p f hf
    have hlt : ([] : List (String × Rat)).length < f := hf
    simp [calculate_divy, hlt]
    omega

/-- C4 counterexample: with zero entries and frequency 0 the summing
branch is taken over an empty slice, so `calculate_divy` returns `Ok(0)`
instead of failing with the empty-history error. -/
theorem calculate_divy_empty_freq0_ok :
    calculate_divy ([] : List (String × Rat)) 100 0 = .ok 0 := by
  with_unfolding_all decide

/-- C4 witness: the empty-history error conjunct at frequency 4. -/
theorem calculate_divy_spec_witness :
    (1 : Nat) ≤ 4 ∧
    calculate_divy ([] : List (String × Rat)) 100 4 =
      .error "Unable to get dividend value" :=
  ⟨by decide, calculate_divy_spec.2.2.1 100 4 (by decide)⟩

/-- C5: on any nonempty history `calculate_dgr` returns the sum of the
consecutive period-over-period percentage changes divided by their count
(the arithmetic mean when at least one delta exists); it errors only on an
empty history.  The last conjunct is the failing input of the claim: a
single-entry history (fewer than 2 entries) returns `Ok`, not the claimed
insufficient-history error — in Rust the `0.0 / 0` count division makes it
`Ok(NaN)`, rendered as `Ok(0)` by total `Rat` division here. -/
theorem calculate_dgr_spec :
    (∀ (d : String × Rat) (rest : List (String × Rat)),
      calculate_dgr (d :: rest) =
        .ok ((dgrDeltas d.2 (rest.map Prod.snd)).sum / (rest.length : Rat))) ∧
    calculate_dgr ([] : List (String × Rat)) = .error "No dividends samples!" ∧
    calculate_dgr exHistHalf = .ok 0 ∧
    calculate_dgr exHistGrow = .ok 100 ∧
    calculate_dgr [("2023-01-01", (1 : Rat))] = .ok 0 :=
  ⟨calculate_dgr_cons, rfl, by with_unfolding_all decide,
   by with_unfolding_all decide, by with_unfolding_all decide⟩

/-- C6: the payout-ratio formula holds ((0.5, 100, 200) gives 25.0), but
the function is `Ok` on every input: for `net_cash_flow = 0` it still
returns `Ok` of the formula (a non-finite f64 in Rust), never a
division-by-zero error. -/
theorem calculate_payout_ratio_spec :
    calculate_payout_ratio 0.5 100 200 = .ok 25 ∧
    (∀ d s n : Rat, calculate_payout_ratio d s n = .ok (d * s / n * 100)) ∧
    (∀ d s : Rat, ∃ v, calculate_payout_ratio d s 0 = .ok v) :=
  ⟨by with_unfolding_all decide, fun _ _ _ => rfl, fun _ _ => ⟨_, rfl⟩⟩

/-- C7: `load_list` fails with the category-not-found error exactly when no
sheet name equals the requested category (string equality); the first two
sheet rows never influence the result; every column name of a successful
load comes from the third row via `headerName` (string cells keep their
text, Empty cells are named "Blended"); and the concrete workbook
`exSheet` loads to `exSheetT`, whose data stems from the rows after the
header. -/
theorem load_list_spec :
    (∀ (excel : List (String × List (List RawCell))) (cat : String),
      load_list excel cat = .error "Error: Category not found" ↔
        ∀ e ∈ excel, e.1 ≠ cat) ∧
    (∀ (r0 r1 r0a r1a : List RawCell) (rest : List (List RawCell)),
      processSheet (r0 :: r1 :: rest) = processSheet (r0a :: r1a :: rest)) ∧
    (∀ (r0 r1 hdr : List RawCell) (dataRows : List (List RawCell)) (t : Table),
      processSheet (r0 :: r1 :: hdr :: dataRows) = .ok t →
      ∀ n ∈ t.cols, n ∈ hdr.filterMap headerName) ∧
    load_list [("Champions", exSheet)] "Champions" = .ok exSheetT := by
  refine ⟨?_, ?_, ?_, by with_unfolding_all decide⟩
  · intro excel cat
    constructor
    · intro h e he
      rcases hf : excel.find? (fun x => x.1 == cat) with _ | e2
      · have hnone := List.find?_eq_none.mp hf e he
        simpa using hnone
      · rw [load_list, hf] at h
        exact absurd h (processSheet_ne_catNotFound e2.2)
    · intro hall
      have hf : excel.find? (fun x => x.1 == cat) = none :=
        List.find?_eq_none.mpr (fun e he => by simpa using hall e he)
      simp [load_list, hf]
  · intro r0 r1 r0a r1a rest
    cases rest with
    | nil => rfl
    | cons hdr dataRows => rfl
  · intro r0 r1 hdr dataRows t h
    exact buildDF_name_mem (hdr.filterMap headerName) (processRows dataRows) t h

/-- C7 witness: the not-found direction at a concrete workbook, and the
column-name property at the concrete successful load. -/
theorem load_list_spec_witness :
    load_list [("Champions", exSheet)] "Contenders" =
      .error "Error: Category not found" :=
  (load_list_spec.1 [("Champions", exSheet)] "Contenders").mpr
    (by with_unfolding_all decide)

/-- C8 witness: idempotence at the concrete scenario table. -/
theorem yield_stage_idempotent_witness :
    analyze_div_yield
      { cols := ["Symbol", "Div Yield"],
        rows := [[Cell.str "ABM", Cell.num 5.54], [Cell.str "CAT", Cell.num 4]] }
      1.61 3.4 3.9 10 =
    .ok { cols := ["Symbol", "Div Yield"],
          rows := [[Cell.str "ABM", Cell.num 5.54], [Cell.str "CAT", Cell.num 4]] } :=
  yield_stage_idempotent exYieldT 1.61 3.4 3.9 10 _ (by with_unfolding_all decide)

end InvestmentForecasting
